import Mathlib

/-!
Shallow embedding of the order-placement and payment-processing core of
`src/models.py` (food-ordering application), together with proofs of the
specification's claims about it.

Modelling conventions:
* Python `float` prices and amounts are modelled as `Rat` (exact arithmetic).
* Python `int` quantities are modelled as `Int` (they may be zero or negative,
  since the code performs no sign validation).
* Python `dict` (insertion-ordered, unique keys) is modelled as an ordered
  association list; updating an existing key keeps its position, inserting a
  new key appends at the end, `pop` deletes the entry.
* `str.isdigit` is modelled as "nonempty and every character is a decimal
  digit" (`Char.isDigit`), and `len` as `String.length`.
* The injected payment gateway is modelled as a function parameter; effectful
  functions additionally return the list of gateway invocations they made, so
  that "the gateway is called exactly once / never" is a provable statement.
-/

namespace FoodOrder

/-- Python dataclass `CartItem` from `models.py`: name, unit price, quantity. -/
structure CartItem where
  name : String
  price : Rat
  quantity : Int
deriving Repr, DecidableEq

/-- Python class `Cart`: insertion-ordered mapping from item name to
`CartItem`, modelled as an association list keyed by `CartItem.name`. -/
structure Cart where
  items : List CartItem
deriving Repr, DecidableEq

/-- The empty cart produced by `Cart.__init__`. -/
def Cart.empty : Cart := ⟨[]⟩

/-- Python `Cart.add_item`: if `name` is already present, increment that
entry's quantity in place (price unchanged, position kept, as a Python dict
update); otherwise append a fresh entry at the end. -/
def Cart.add_item (c : Cart) (name : String) (price : Rat) (quantity : Int) : Cart :=
  if c.items.any (fun i => i.name == name) then
    ⟨c.items.map (fun i =>
      if i.name == name then { i with quantity := i.quantity + quantity } else i)⟩
  else
    ⟨c.items ++ [⟨name, price, quantity⟩]⟩

/-- Python `Cart.remove_item`: `self.items.pop(name, None)` — delete the
entry if present, no-op otherwise. -/
def Cart.remove_item (c : Cart) (name : String) : Cart :=
  ⟨c.items.filter (fun i => !(i.name == name))⟩

/-- Python `Cart.total`:
`sum(item.price * item.quantity for item in self.items.values())`. -/
def Cart.total (c : Cart) : Rat :=
  (c.items.map (fun i => i.price * (i.quantity : Rat))).sum

/-- Python `Cart.is_empty`: `not self.items`. -/
def Cart.is_empty (c : Cart) : Bool :=
  c.items.isEmpty

/-- Lookup of the entry stored under `name` (the value `self.items[name]`
would give), for stating properties of carts. -/
def Cart.find (c : Cart) (name : String) : Option CartItem :=
  c.items.find? (fun i => i.name == name)

/-- Python class `RestaurantMenu`: insertion-ordered mapping from item name
to price. -/
structure RestaurantMenu where
  available_items : List (String × Rat)
deriving Repr, DecidableEq

/-- Python `RestaurantMenu.add_menu_item`: insert or overwrite the entry for
`name`. -/
def RestaurantMenu.add_menu_item (m : RestaurantMenu) (name : String) (price : Rat) :
    RestaurantMenu :=
  if m.available_items.any (fun p => p.1 == name) then
    ⟨m.available_items.map (fun p => if p.1 == name then (p.1, price) else p)⟩
  else
    ⟨m.available_items ++ [(name, price)]⟩

/-- Python `RestaurantMenu.has_item`: exact-name membership test. -/
def RestaurantMenu.has_item (m : RestaurantMenu) (name : String) : Bool :=
  m.available_items.any (fun p => p.1 == name)

/-- The `{"success": ..., "message": ...}` dictionary returned by
`OrderPlacement.validate_order`. -/
structure Verdict where
  success : Bool
  message : String
deriving Repr, DecidableEq

/-- The loop body of `validate_order`: scan the cart entries in order and
report the first whose name the menu lacks. -/
def firstUnavailable (menu : RestaurantMenu) : List CartItem → Option CartItem
  | [] => none
  | i :: rest => if menu.has_item i.name then firstUnavailable menu rest else some i

/-- Python `OrderPlacement.validate_order`: empty-cart check, then the first
cart entry absent from the menu (in insertion order) is reported; otherwise
the order is valid. -/
def validate_order (cart : Cart) (menu : RestaurantMenu) : Verdict :=
  if cart.is_empty then ⟨false, "Cart is empty"⟩
  else
    match firstUnavailable menu cart.items with
    | some i => ⟨false, i.name ++ " is not available"⟩
    | none => ⟨true, "Order is valid"⟩

/-- Python `str.isdigit`: true iff the string is nonempty and every
character is a decimal digit (restricted to the decimal-digit reading for
this embedding). -/
def isdigit (s : String) : Bool :=
  !s.data.isEmpty && s.data.all Char.isDigit

/-- Python `PaymentProcessing.SUPPORTED_METHODS = {"credit_card"}`. -/
def SUPPORTED_METHODS : List String := ["credit_card"]

/-- Python `PaymentProcessing.validate_payment_method`: raises
`ValueError("Invalid payment method")` when `method` is unsupported, returns
`True` otherwise. The raised error is modelled as `Except.error` carrying the
exception's message. -/
def validate_payment_method (method : String) : Except String Bool :=
  if method ∈ SUPPORTED_METHODS then Except.ok true
  else Except.error "Invalid payment method"

/-- Python `PaymentProcessing.validate_credit_card`:
`len(card_number) in (15, 16) and len(cvv) == 3 and card_number.isdigit() and cvv.isdigit()`. -/
def validate_credit_card (card_number : String) (cvv : String) : Bool :=
  (card_number.length == 15 || card_number.length == 16) && cvv.length == 3
    && isdigit card_number && isdigit cvv

/-- One invocation of `PaymentMethod.process_payment`: the amount and the
payload dictionary passed to the gateway. -/
structure GatewayCall where
  amount : Rat
  payload : List (String × String)
deriving Repr, DecidableEq

/-- An abstract payment gateway (the `PaymentMethod` collaborator): a
boolean-valued capability taking the amount and the payload dictionary. -/
def Gateway := Rat → List (String × String) → Bool

/-- Python `PaymentProcessing.process_payment`: validate the method
(converting the raised `ValueError` into an `"Error: ..."` message), validate
the card format, then invoke the gateway once and translate its boolean
result. Returns the message together with the list of gateway invocations
performed. -/
def process_payment (gw : Gateway) (amount : Rat) (method : String)
    (card_number : String) (cvv : String) : String × List GatewayCall :=
  match validate_payment_method method with
  | Except.error exc => ("Error: " ++ exc, [])
  | Except.ok _ =>
    if !validate_credit_card card_number cvv then
      ("Payment failed, please try again", [])
    else
      let payload := [("card_number", card_number), ("cvv", cvv), ("method", method)]
      let success := gw amount payload
      (if success then "Payment successful, Order confirmed"
       else "Payment failed, please try again",
       [⟨amount, payload⟩])

/-- Modelled from the spec: the `OrderWorkflow.placeOrder` composition (§4.5)
is not a function of `src/models.py`; it is the required end-to-end contract
chaining `validate_order` and `process_payment`. "Run
OrderValidator.validate(cart, menu). If rejected, return that verdict's
reason as the final outcome; never call PaymentProcessor. If accepted,
compute `amount = cart.total()` and call
PaymentProcessor.processPayment(amount, paymentMethod, cardNumber, cvv);
its outcome is the final result." -/
def placeOrder (gw : Gateway) (cart : Cart) (menu : RestaurantMenu)
    (method : String) (card_number : String) (cvv : String) : String × List GatewayCall :=
  let verdict := validate_order cart menu
  if verdict.success then
    process_payment gw (cart.total) method card_number cvv
  else
    (verdict.message, [])

/-- Cart states reachable from the empty cart by arbitrary sequences of
`add_item` and `remove_item` calls, with arbitrary arguments. -/
inductive ReachableAny : Cart → Prop
  | empty : ReachableAny Cart.empty
  | add (c : Cart) (name : String) (price : Rat) (quantity : Int) :
      ReachableAny c → ReachableAny (c.add_item name price quantity)
  | remove (c : Cart) (name : String) :
      ReachableAny c → ReachableAny (c.remove_item name)

/-- Cart states reachable from the empty cart when every `add_item` call
passes a quantity of at least 1 (`remove_item` unrestricted). -/
inductive ReachablePos : Cart → Prop
  | empty : ReachablePos Cart.empty
  | add (c : Cart) (name : String) (price : Rat) (quantity : Int) :
      1 ≤ quantity → ReachablePos c → ReachablePos (c.add_item name price quantity)
  | remove (c : Cart) (name : String) :
      ReachablePos c → ReachablePos (c.remove_item name)

/-- Folding a sequence of `add_item` calls for one fixed name over a cart:
`addSeq c name [(p1, q1), (p2, q2), ...]` performs
`c.add_item name p1 q1; c.add_item name p2 q2; ...` in order. -/
def addSeq (c : Cart) (name : String) : List (Rat × Int) → Cart
  | [] => c
  | (p, q) :: rest => addSeq (c.add_item name p q) name rest

end FoodOrder

namespace FoodOrder

lemma mem_SUPPORTED_METHODS (m : String) : m ∈ SUPPORTED_METHODS ↔ m = "credit_card" := by
  simp [SUPPORTED_METHODS]

/-- C1: for the end-to-end composition `placeOrder(cart, menu, method,
cardNumber, cvv)`: for every cart and menu, if `validate_order` rejects, the
final outcome is that verdict's reason and the gateway is never invoked; if
it accepts, the final outcome equals `process_payment` applied to
`amount = cart.total()` and the given payment credentials. -/
theorem placeOrder_composition (gw : Gateway) (cart : Cart) (menu : RestaurantMenu)
    (method card_number cvv : String) :
    ((validate_order cart menu).success = false →
      placeOrder gw cart menu method card_number cvv = ((validate_order cart menu).message, []))
    ∧ ((validate_order cart menu).success = true →
      placeOrder gw cart menu method card_number cvv
        = process_payment gw cart.total method card_number cvv) := by
  constructor <;> intro h <;> simp [placeOrder, h]

/-- Witness for C1 at a concrete rejected input: the empty cart against the
empty menu yields "Cart is empty" with no gateway call. -/
theorem placeOrder_composition_witness :
    placeOrder (fun _ _ => true) Cart.empty ⟨[]⟩ "credit_card" "4242424242424242" "123"
      = ("Cart is empty", []) := by
  have h := (placeOrder_composition (fun _ _ => true) Cart.empty ⟨[]⟩ "credit_card"
    "4242424242424242" "123").1 (by decide)
  rw [h]
  decide

/-- C2: for every amount, card number and cvv, when the method is supported
and the card format is valid, `process_payment` invokes the gateway exactly
once with that amount and the payload holding the card number, cvv and
method, and returns "Payment successful, Order confirmed" when the gateway
returns true and "Payment failed, please try again" when it returns false. -/
theorem process_payment_gateway_once (gw : Gateway) (amount : Rat)
    (method card_number cvv : String)
    (hm : method ∈ SUPPORTED_METHODS) (hcc : validate_credit_card card_number cvv = true) :
    process_payment gw amount method card_number cvv
      = ((if gw amount [("card_number", card_number), ("cvv", cvv), ("method", method)]
          then "Payment successful, Order confirmed"
          else "Payment failed, please try again"),
         [⟨amount, [("card_number", card_number), ("cvv", cvv), ("method", method)]⟩]) := by
  simp [process_payment, validate_payment_method, hm, hcc]

/-- Witness for C2 at a concrete input: a supported method and a valid card
against an always-approving gateway. -/
theorem process_payment_gateway_once_witness :
    process_payment (fun _ _ => true) 10 "credit_card" "4242424242424242" "123"
      = ("Payment successful, Order confirmed",
         [⟨10, [("card_number", "4242424242424242"), ("cvv", "123"),
                ("method", "credit_card")]⟩]) := by
  have h := process_payment_gateway_once (fun _ _ => true) 10 "credit_card"
    "4242424242424242" "123" (by decide) (by decide)
  rw [h]
  decide

/-- C3: for every input to `process_payment`: an unsupported method yields
"Error: Invalid payment method" without invoking the gateway; a supported
method with an invalid card format yields "Payment failed, please try again"
without invoking the gateway. -/
theorem process_payment_rejections (gw : Gateway) (amount : Rat)
    (method card_number cvv : String) :
    (method ∉ SUPPORTED_METHODS →
      process_payment gw amount method card_number cvv
        = ("Error: Invalid payment method", []))
    ∧ (method ∈ SUPPORTED_METHODS → validate_credit_card card_number cvv = false →
      process_payment gw amount method card_number cvv
        = ("Payment failed, please try again", [])) := by
  constructor
  · intro h
    simp [process_payment, validate_payment_method, h]
  · intro h hcc
    simp [process_payment, validate_payment_method, h, hcc]

/-- Witness for C3 at a concrete input: method "cash" is unsupported, so the
result is the invalid-method message and no gateway call. -/
theorem process_payment_rejections_witness :
    process_payment (fun _ _ => true) 10 "cash" "4242424242424242" "123"
      = ("Error: Invalid payment method", []) := by
  have h := (process_payment_rejections (fun _ _ => true) 10 "cash"
    "4242424242424242" "123").1 (by decide)
  rw [h]

/-- C9: for every method string, `validate_payment_method` raises
`ValueError("Invalid payment method")` iff the method is not in the
supported set `{"credit_card"}`, and returns true otherwise;
`process_payment` catches this error and converts it into a returned
"Error: ..." message rather than propagating it. -/
theorem validate_payment_method_spec (method : String) :
    (validate_payment_method method = Except.error "Invalid payment method"
      ↔ method ∉ SUPPORTED_METHODS)
    ∧ (method ∈ SUPPORTED_METHODS → validate_payment_method method = Except.ok true)
    ∧ (∀ (gw : Gateway) (amount : Rat) (card_number cvv e : String),
        validate_payment_method method = Except.error e →
        process_payment gw amount method card_number cvv = ("Error: " ++ e, [])) := by
  refine ⟨?_, ?_, ?_⟩
  · constructor
    · intro h hm
      simp [validate_payment_method, hm] at h
    · intro h
      simp [validate_payment_method, h]
  · intro h
    simp [validate_payment_method, h]
  · intro gw amount card_number cvv e h
    simp [process_payment, h]

/-- Witness for C9 at a concrete input: "paypal" is unsupported, so the
check raises and `process_payment` renders the error as a message. -/
theorem validate_payment_method_spec_witness :
    validate_payment_method "paypal" = Except.error "Invalid payment method"
    ∧ process_payment (fun _ _ => true) 5 "paypal" "4242424242424242" "123"
        = ("Error: " ++ "Invalid payment method", []) := by
  have h := validate_payment_method_spec "paypal"
  refine ⟨h.1.mpr (by decide), h.2.2 (fun _ _ => true) 5 "4242424242424242" "123"
    "Invalid payment method" (h.1.mpr (by decide))⟩

end FoodOrder

namespace FoodOrder

lemma firstUnavailable_eq_find? (menu : RestaurantMenu) (l : List CartItem) :
    firstUnavailable menu l = l.find? (fun i => !(menu.has_item i.name)) := by
  induction l with
  | nil => rfl
  | cons a l ih =>
    cases h : menu.has_item a.name <;> simp [firstUnavailable, List.find?_cons, h, ih]

/-- C4: for every cart and menu, `validate_order` rejects with reason
"Cart is empty" iff the cart has zero entries (regardless of menu contents);
otherwise, if some cart item name is absent from the menu, it rejects with
reason "name is not available" for the first offending entry in insertion
order; and if every entry's name is present in the menu, it accepts with
reason "Order is valid". -/
theorem validate_order_spec (cart : Cart) (menu : RestaurantMenu) :
    (validate_order cart menu = ⟨false, "Cart is empty"⟩ ↔ cart.items = [])
    ∧ (∀ i : CartItem, cart.items.find? (fun j => !(menu.has_item j.name)) = some i →
        validate_order cart menu = ⟨false, i.name ++ " is not available"⟩)
    ∧ (cart.items ≠ [] → (∀ i ∈ cart.items, menu.has_item i.name = true) →
        validate_order cart menu = ⟨true, "Order is valid"⟩) := by
  refine ⟨⟨?_, ?_⟩, ?_, ?_⟩
  · intro h
    by_contra hne
    have hempty : ¬ (cart.is_empty = true) := by
      simp [Cart.is_empty, List.isEmpty_iff, hne]
    rw [validate_order, if_neg hempty] at h
    cases hfu : firstUnavailable menu cart.items with
    | none => rw [hfu] at h; simp at h
    | some i =>
      rw [hfu] at h
      rw [Verdict.mk.injEq] at h
      have hl := congrArg String.length h.2
      rw [String.length_append] at hl
      have e1 : (" is not available").length = 17 := rfl
      have e2 : ("Cart is empty").length = 13 := rfl
      omega
  · intro h
    obtain ⟨l⟩ := cart
    simp only at h
    subst h
    rfl
  · intro i h
    have hne : cart.items ≠ [] := by
      intro hnil
      rw [hnil] at h
      simp at h
    have hempty : ¬ (cart.is_empty = true) := by
      simp [Cart.is_empty, List.isEmpty_iff, hne]
    rw [validate_order, if_neg hempty, firstUnavailable_eq_find?, h]
  · intro hne hall
    have hempty : ¬ (cart.is_empty = true) := by
      simp [Cart.is_empty, List.isEmpty_iff, hne]
    have hnone : cart.items.find? (fun i => !(menu.has_item i.name)) = none := by
      rw [List.find?_eq_none]
      intro a ha
      simp [hall a ha]
    rw [validate_order, if_neg hempty, firstUnavailable_eq_find?, hnone]

/-- Witness for C4 at a concrete input: a cart holding "Salad" against an
empty menu is rejected with "Salad is not available". -/
theorem validate_order_spec_witness :
    validate_order ⟨[⟨"Salad", 5, 1⟩]⟩ ⟨[]⟩ = ⟨false, "Salad is not available"⟩ := by
  have h := (validate_order_spec ⟨[⟨"Salad", 5, 1⟩]⟩ ⟨[]⟩).2.1 ⟨"Salad", 5, 1⟩ (by decide)
  rw [h]
  decide

/-- C5: for every pair of strings, `validate_credit_card` returns true iff
the card number consists only of decimal digits and has length 15 or 16, and
the cvv consists only of decimal digits and has length exactly 3 (no Luhn or
issuer-prefix check). -/
theorem validate_credit_card_spec (card_number cvv : String) :
    validate_credit_card card_number cvv = true ↔
      ((∀ ch ∈ card_number.data, ch.isDigit = true)
        ∧ (card_number.length = 15 ∨ card_number.length = 16)
        ∧ (∀ ch ∈ cvv.data, ch.isDigit = true)
        ∧ cvv.length = 3) := by
  constructor
  · intro h
    simp [validate_credit_card, isdigit, List.all_eq_true, Bool.and_eq_true,
      Bool.or_eq_true, beq_iff_eq] at h
    exact ⟨h.1.2.2, h.1.1.1, h.2.2, h.1.1.2⟩
  · rintro ⟨h1, h2, h3, h4⟩
    have hcd : card_number.data ≠ [] := by
      intro hnil
      have h2' : card_number.data.length = 15 ∨ card_number.data.length = 16 := h2
      rw [hnil] at h2'
      simp at h2'
    have hvd : cvv.data ≠ [] := by
      intro hnil
      have h4' : cvv.data.length = 3 := h4
      rw [hnil] at h4'
      simp at h4'
    simp [validate_credit_card, isdigit, List.all_eq_true, Bool.and_eq_true,
      Bool.or_eq_true, beq_iff_eq]
    exact ⟨⟨⟨h2, h4⟩, hcd, h1⟩, hvd, h3⟩

/-- Witness for C5 at a concrete input: a 16-digit card number with a
3-digit cvv is accepted. -/
theorem validate_credit_card_spec_witness :
    validate_credit_card "4242424242424242" "123" = true :=
  (validate_credit_card_spec "4242424242424242" "123").mpr (by decide)

end FoodOrder

namespace FoodOrder

lemma find?_append_of_none {α : Type} {p : α → Bool} {l₁ : List α} (l₂ : List α)
    (h : l₁.find? p = none) : (l₁ ++ l₂).find? p = l₂.find? p := by
  induction l₁ with
  | nil => simp
  | cons a l ih =>
    cases hpa : p a with
    | true => simp [List.find?_cons, hpa] at h
    | false =>
      rw [List.find?_cons, hpa] at h
      simp [List.find?_cons, hpa, ih h]

lemma find?_map_update (name : String) (q : Int) (l : List CartItem) :
    (l.map (fun i => if i.name == name then { i with quantity := i.quantity + q } else i)).find?
        (fun i => i.name == name)
      = (l.find? (fun i => i.name == name)).map
          (fun i => { i with quantity := i.quantity + q }) := by
  induction l with
  | nil => rfl
  | cons a l ih =>
    by_cases ha : a.name = name
    · have hpa : (a.name == name) = true := by simp [ha]
      simp only [List.map_cons, List.find?_cons, hpa, if_true]
      rfl
    · have hpa : (a.name == name) = false := by simp [ha]
      simp only [List.map_cons, List.find?_cons, hpa, if_false, Bool.false_eq_true]
      exact ih

lemma find_add_item_absent (c : Cart) (name : String) (p : Rat) (q : Int)
    (h : c.find name = none) :
    (c.add_item name p q).find name = some ⟨name, p, q⟩ := by
  have hforall := List.find?_eq_none.mp h
  have hany : c.items.any (fun i => i.name == name) = false := by
    rw [List.any_eq_false]
    intro i hi
    simpa using hforall i hi
  rw [Cart.add_item, if_neg (by simp [hany]), Cart.find]
  rw [find?_append_of_none _ h]
  simp [List.find?_cons]

lemma find_add_item_present (c : Cart) (name : String) (p : Rat) (q : Int) (i : CartItem)
    (h : c.find name = some i) :
    (c.add_item name p q).find name = some ⟨i.name, i.price, i.quantity + q⟩ := by
  have hmem := List.mem_of_find?_eq_some h
  have hpred := List.find?_some h
  have hany : c.items.any (fun i => i.name == name) = true := by
    rw [List.any_eq_true]
    exact ⟨i, hmem, hpred⟩
  rw [Cart.add_item, if_pos hany, Cart.find]
  rw [find?_map_update]
  rw [Cart.find] at h
  rw [h]
  rfl

lemma addSeq_find (name : String) : ∀ (l : List (Rat × Int)) (c : Cart) (i : CartItem),
    c.find name = some i →
    (addSeq c name l).find name
      = some ⟨i.name, i.price, i.quantity + (l.map Prod.snd).sum⟩ := by
  intro l
  induction l with
  | nil =>
    intro c i h
    simpa using h
  | cons pq rest ih =>
    obtain ⟨p, q⟩ := pq
    intro c i h
    have h2 := find_add_item_present c name p q i h
    have h3 := ih (c.add_item name p q) _ h2
    simp only [addSeq, List.map_cons, List.sum_cons] at h3 ⊢
    rw [h3]
    congr 1
    simp
    ring

/-- C7: for every sequence of `add_item` calls with the same name starting
from a cart not containing that name (and no intervening `remove_item` of
that name), the resulting entry's quantity equals the sum of the quantities
passed, and its price equals the price passed in the first call for that
name; later prices for the same name are ignored. -/
theorem add_item_accumulates (c : Cart) (name : String) (p : Rat) (q : Int)
    (rest : List (Rat × Int)) (h : c.find name = none) :
    (addSeq c name ((p, q) :: rest)).find name
      = some ⟨name, p, q + (rest.map Prod.snd).sum⟩ := by
  have h1 := find_add_item_absent c name p q h
  have h2 := addSeq_find name rest _ _ h1
  simpa using h2

/-- Witness for C7 at a concrete input: adding "Pizza" twice (quantities 2
then 3, second price 99 ignored) yields the entry with price 10 and
quantity 5. -/
theorem add_item_accumulates_witness :
    (addSeq Cart.empty "Pizza" [(10, 2), (99, 3)]).find "Pizza"
      = some ⟨"Pizza", 10, 5⟩ := by
  have h := add_item_accumulates Cart.empty "Pizza" 10 2 [(99, 3)] (by decide)
  rw [h]
  decide

/-- C6: for every cart state reachable by any sequence of `add_item` and
`remove_item` calls, `total` equals the sum over all current entries of
price times quantity, and the total of the empty cart is 0. -/
theorem cart_total_spec :
    (∀ c : Cart, ReachableAny c →
      c.total = (c.items.map (fun i => i.price * (i.quantity : Rat))).sum)
    ∧ Cart.empty.total = 0 :=
  ⟨fun _ _ => rfl, rfl⟩

/-- Witness for C6 at a concrete reachable cart. -/
theorem cart_total_spec_witness :
    (Cart.empty.add_item "Pizza" 10 2).total
      = ((Cart.empty.add_item "Pizza" 10 2).items.map
          (fun i => i.price * (i.quantity : Rat))).sum :=
  cart_total_spec.1 _ (ReachableAny.add _ _ _ _ ReachableAny.empty)

/-- Counterexample to C8 as stated: with arbitrary `add_item` arguments the
quantity invariant fails — adding "Pizza" with quantity 0 is a reachable
state holding an entry of quantity 0 < 1. -/
theorem quantity_invariant_counterexample :
    ReachableAny (Cart.empty.add_item "Pizza" 10 0)
      ∧ ¬ (∀ i ∈ (Cart.empty.add_item "Pizza" 10 0).items, 1 ≤ i.quantity) :=
  ⟨ReachableAny.add _ _ _ _ ReachableAny.empty, by decide⟩

/-- C8 (amended): in every cart state reachable by `add_item` calls whose
quantity argument is at least 1 (and arbitrary `remove_item` calls), every
entry has quantity at least 1. -/
theorem quantity_invariant_pos (c : Cart) (hc : ReachablePos c) :
    ∀ i ∈ c.items, 1 ≤ i.quantity := by
  induction hc with
  | empty =>
    intro i hi
    simp [Cart.empty] at hi
  | add c name price quantity hq _ ih =>
    intro i hi
    rw [Cart.add_item] at hi
    by_cases hany : (c.items.any (fun j => j.name == name)) = true
    · rw [if_pos hany] at hi
      simp only [List.mem_map] at hi
      obtain ⟨j, hj, hij⟩ := hi
      by_cases hjn : (j.name == name) = true
      · rw [if_pos hjn] at hij
        have := ih j hj
        subst hij
        simp only
        omega
      · rw [if_neg hjn] at hij
        subst hij
        exact ih j hj
    · rw [if_neg hany] at hi
      simp only [List.mem_append, List.mem_singleton] at hi
      cases hi with
      | inl hmem => exact ih i hmem
      | inr heq => subst heq; exact hq
  | remove c name _ ih =>
    intro i hi
    rw [Cart.remove_item] at hi
    exact ih i (List.mem_of_mem_filter hi)

/-- Witness for C8 (amended) at a concrete input: the entry produced by
adding "Pizza" with quantity 1 has quantity at least 1. -/
theorem quantity_invariant_pos_witness :
    1 ≤ (CartItem.mk "Pizza" 10 1).quantity :=
  quantity_invariant_pos (Cart.empty.add_item "Pizza" 10 1)
    (ReachablePos.add _ _ _ _ (by decide) ReachablePos.empty)
    ⟨"Pizza", 10, 1⟩ (by decide)

lemma filter_ne_map_update (name : String) (q : Int) (l : List CartItem) :
    (l.map (fun i => if i.name == name then { i with quantity := i.quantity + q } else i)).filter
        (fun i => !(i.name == name))
      = l.filter (fun i => !(i.name == name)) := by
  induction l with
  | nil => rfl
  | cons a l ih =>
    by_cases ha : a.name = name
    · have hpa : (a.name == name) = true := by simp [ha]
      simp only [List.map_cons, List.filter_cons, hpa, if_true]
      simpa [hpa] using ih
    · have hpa : (a.name == name) = false := by simp [ha]
      simp only [List.map_cons, List.filter_cons, hpa, if_false, Bool.false_eq_true]
      simpa [hpa] using ih

/-- C10: for every cart state and every name, `add_item` and `remove_item`
leave the subsequence of entries with a different name unchanged (same name,
price and quantity, in order), and `remove_item` on a name not present
leaves the cart entirely unchanged. -/
theorem cart_frame (c : Cart) (name : String) (p : Rat) (q : Int) :
    ((c.add_item name p q).items.filter (fun i => !(i.name == name))
        = c.items.filter (fun i => !(i.name == name)))
    ∧ ((c.remove_item name).items.filter (fun i => !(i.name == name))
        = c.items.filter (fun i => !(i.name == name)))
    ∧ (c.find name = none → c.remove_item name = c) := by
  refine ⟨?_, ?_, ?_⟩
  · rw [Cart.add_item]
    by_cases hany : (c.items.any (fun j => j.name == name)) = true
    · rw [if_pos hany]
      exact filter_ne_map_update name q c.items
    · rw [if_neg hany]
      simp only [List.filter_append]
      simp [List.filter_cons]
  · rw [Cart.remove_item]
    simp only [List.filter_filter]
    simp
  · intro h
    have hforall := List.find?_eq_none.mp h
    rw [Cart.remove_item]
    have : c.items.filter (fun i => !(i.name == name)) = c.items := by
      rw [List.filter_eq_self]
      intro a ha
      simpa using hforall a ha
    rw [this]

/-- Witness for C10 at a concrete input: removing an absent name leaves the
cart unchanged. -/
theorem cart_frame_witness :
    Cart.remove_item ⟨[⟨"Pizza", 10, 1⟩]⟩ "Salad" = ⟨[⟨"Pizza", 10, 1⟩]⟩ :=
  (cart_frame ⟨[⟨"Pizza", 10, 1⟩]⟩ "Salad" 0 0).2.2 (by decide)

end FoodOrder
